import Mathlib

/-!
# cchello: three call layers writing greetings to standard output

Shallow embedding of `cchello/cchello.cpp`, `cchello/l1/l1.cpp`,
`cchello/l1/l2/l2.cpp` and `cchello/l1/l2/l2_ntu.cpp`.

Standard output is modelled as the text written so far.  A C++ function
`void f(std::string name)` becomes `f : String → Stdout → Stdout`, taking the
buffer before the call to the buffer after it.  The statement
`std::cout << a << b << std::endl;` appends `a`, then `b`, then one line break;
the flush performed by `std::endl` does not change the written text.
A `std::string` is a finite sequence of characters and is written unchanged,
whatever it contains; no statement below depends on which characters a name
is made of, except where it says so.
-/

/-- The text written to standard output so far. -/
abbrev Stdout := String

namespace cc

/-! ## `l2.cpp` -/

/-- Embeds `hello_from_l2_impl` (l2.cpp, lines 9-11). -/
def hello_from_l2_impl (name : String) (out : Stdout) : Stdout :=
  out ++ "Hello " ++ name ++ " from L2!"

/-- Embeds `hello_from_l2_exported_and_called` (l2.cpp, lines 15-18). -/
def hello_from_l2_exported_and_called (name : String) (out : Stdout) : Stdout :=
  let out := hello_from_l2_impl name out
  out ++ " exported_and_called" ++ "\n"

/-- Embeds `hello_from_l2_exported_not_called` (l2.cpp, lines 20-23). -/
def hello_from_l2_exported_not_called (name : String) (out : Stdout) : Stdout :=
  let out := hello_from_l2_impl name out
  out ++ " exported_not_called" ++ "\n"

/-- Embeds `hello_from_l2_not_exported_but_called` (l2.cpp, lines 25-28). -/
def hello_from_l2_not_exported_but_called (name : String) (out : Stdout) : Stdout :=
  let out := hello_from_l2_impl name out
  out ++ " not_exported_but_called" ++ "\n"

/-- Embeds `hello_from_l2_not_exported_not_called` (l2.cpp, lines 30-33). -/
def hello_from_l2_not_exported_not_called (name : String) (out : Stdout) : Stdout :=
  let out := hello_from_l2_impl name out
  out ++ " not_exported_not_called" ++ "\n"

/-! ## `l2_ntu.cpp` -/

/-- Embeds `hello_from_l2_ntu_exported_not_called` (l2_ntu.cpp, lines 7-10). -/
def hello_from_l2_ntu_exported_not_called (name : String) (out : Stdout) : Stdout :=
  out ++ "Hello " ++ name ++ " from L2 NTU exported not called!" ++ "\n"

/-- Embeds `hello_from_l2_ntu_not_exported_not_called` (l2_ntu.cpp, lines 12-15). -/
def hello_from_l2_ntu_not_exported_not_called (name : String) (out : Stdout) : Stdout :=
  out ++ "Hello " ++ name ++ " from L2 NTU not exported not called!" ++ "\n"

/-! ## `l1.cpp` -/

/-- Embeds `hello_from_l1_impl` (l1.cpp, lines 11-15). -/
def hello_from_l1_impl (name : String) (out : Stdout) : Stdout :=
  let out := hello_from_l2_exported_and_called name out
  let out := hello_from_l2_not_exported_but_called name out
  out ++ "Hello " ++ name ++ " from L1!"

/-- Embeds `hello_from_l1_exported_and_called` (l1.cpp, lines 19-22). -/
def hello_from_l1_exported_and_called (name : String) (out : Stdout) : Stdout :=
  let out := hello_from_l1_impl name out
  out ++ " exported_and_called" ++ "\n"

/-- Embeds `hello_from_l1_exported_not_called` (l1.cpp, lines 24-27). -/
def hello_from_l1_exported_not_called (name : String) (out : Stdout) : Stdout :=
  let out := hello_from_l1_impl name out
  out ++ " exported_not_called" ++ "\n"

/-- Embeds `hello_from_l1_not_exported_but_called` (l1.cpp, lines 29-32). -/
def hello_from_l1_not_exported_but_called (name : String) (out : Stdout) : Stdout :=
  let out := hello_from_l1_impl name out
  out ++ " not_exported_but_called" ++ "\n"

/-- Embeds `hello_from_l1_not_exported_not_called` (l1.cpp, lines 34-37). -/
def hello_from_l1_not_exported_not_called (name : String) (out : Stdout) : Stdout :=
  let out := hello_from_l1_impl name out
  out ++ " not_exported_not_called" ++ "\n"

/-! ## `cchello.cpp` -/

/-- Embeds `cc::hello` (cchello.cpp, lines 9-13). -/
def hello (name : String) (out : Stdout) : Stdout :=
  let out := out ++ "Hello, World! " ++ name ++ "\n"
  let out := hello_from_l1_exported_and_called name out
  hello_from_l1_not_exported_but_called name out

/-! ## The functions of the three layers, by name -/

/-- The eleven functions with external or header-level names: the entry
operation, the four L1 functions, the four regular L2 functions and the two
NTU functions. -/
inductive Fn where
  | entry
  | l1_exported_and_called
  | l1_exported_not_called
  | l1_not_exported_but_called
  | l1_not_exported_not_called
  | l2_exported_and_called
  | l2_exported_not_called
  | l2_not_exported_but_called
  | l2_not_exported_not_called
  | l2_ntu_exported_not_called
  | l2_ntu_not_exported_not_called
  deriving DecidableEq, Repr

/-- Calls the named function with `name` on the buffer `out`. -/
def Fn.run : Fn → String → Stdout → Stdout
  | .entry => hello
  | .l1_exported_and_called => hello_from_l1_exported_and_called
  | .l1_exported_not_called => hello_from_l1_exported_not_called
  | .l1_not_exported_but_called => hello_from_l1_not_exported_but_called
  | .l1_not_exported_not_called => hello_from_l1_not_exported_not_called
  | .l2_exported_and_called => hello_from_l2_exported_and_called
  | .l2_exported_not_called => hello_from_l2_exported_not_called
  | .l2_not_exported_but_called => hello_from_l2_not_exported_but_called
  | .l2_not_exported_not_called => hello_from_l2_not_exported_not_called
  | .l2_ntu_exported_not_called => hello_from_l2_ntu_exported_not_called
  | .l2_ntu_not_exported_not_called => hello_from_l2_ntu_not_exported_not_called

/-- The text a call writes: the buffer after the call when it starts empty. -/
def output (f : String → Stdout → Stdout) (name : String) : String :=
  f name ""

/-- The literal that stands right before the first `name` a function writes. -/
def Fn.lead : Fn → String
  | .entry => "Hello, World! "
  | _ => "Hello "

/-- The text `p` occurs in `s` as a contiguous substring. -/
def Occurs (p s : String) : Prop := p.data <:+: s.data

instance (p s : String) : Decidable (Occurs p s) := by
  unfold Occurs; infer_instance

/-- The number of line breaks in a text. -/
def lineBreaks (s : String) : Nat := s.data.count '\n'

/-- The text `out` is one line `Hello <name> ...`: it starts with `Hello ` and
the name, ends with a line break, and has no other line break. -/
def SingleHelloLine (name out : String) : Prop :=
  (∃ fixed : String, out = "Hello " ++ name ++ fixed ++ "\n") ∧ lineBreaks out = 1

/-- One line `Hello <name> from <layer> <suffix>` with its line break, as a
list of characters broken at the blanks, followed by `rest`. -/
def layerLine (name layer suffix rest : List Char) : List Char :=
  "Hello".data ++ ' ' :: (name ++ ' ' :: ("from".data ++ ' ' ::
    (layer ++ ' ' :: (suffix ++ '\n' :: rest))))

/-! ## Exact outputs -/

theorem l2_impl_run (name : String) (b : Stdout) :
    hello_from_l2_impl name b = b ++ ("Hello " ++ name ++ " from L2!") := by
  apply String.ext
  simp [hello_from_l2_impl]

theorem l2_exported_and_called_run (name : String) (b : Stdout) :
    hello_from_l2_exported_and_called name b =
      b ++ ("Hello " ++ name ++ " from L2! exported_and_called\n") := by
  apply String.ext
  simp [hello_from_l2_exported_and_called, hello_from_l2_impl]

theorem l2_exported_not_called_run (name : String) (b : Stdout) :
    hello_from_l2_exported_not_called name b =
      b ++ ("Hello " ++ name ++ " from L2! exported_not_called\n") := by
  apply String.ext
  simp [hello_from_l2_exported_not_called, hello_from_l2_impl]

theorem l2_not_exported_but_called_run (name : String) (b : Stdout) :
    hello_from_l2_not_exported_but_called name b =
      b ++ ("Hello " ++ name ++ " from L2! not_exported_but_called\n") := by
  apply String.ext
  simp [hello_from_l2_not_exported_but_called, hello_from_l2_impl]

theorem l2_not_exported_not_called_run (name : String) (b : Stdout) :
    hello_from_l2_not_exported_not_called name b =
      b ++ ("Hello " ++ name ++ " from L2! not_exported_not_called\n") := by
  apply String.ext
  simp [hello_from_l2_not_exported_not_called, hello_from_l2_impl]

theorem l2_ntu_exported_not_called_run (name : String) (b : Stdout) :
    hello_from_l2_ntu_exported_not_called name b =
      b ++ ("Hello " ++ name ++ " from L2 NTU exported not called!\n") := by
  apply String.ext
  simp [hello_from_l2_ntu_exported_not_called]

theorem l2_ntu_not_exported_not_called_run (name : String) (b : Stdout) :
    hello_from_l2_ntu_not_exported_not_called name b =
      b ++ ("Hello " ++ name ++ " from L2 NTU not exported not called!\n") := by
  apply String.ext
  simp [hello_from_l2_ntu_not_exported_not_called]

/-- The text written by the L1 helper, before the caller appends its suffix. -/
theorem l1_impl_run (name : String) (b : Stdout) :
    hello_from_l1_impl name b =
      b ++ ("Hello " ++ name ++ " from L2! exported_and_called\n" ++
            "Hello " ++ name ++ " from L2! not_exported_but_called\n" ++
            "Hello " ++ name ++ " from L1!") := by
  simp only [hello_from_l1_impl, l2_exported_and_called_run,
    l2_not_exported_but_called_run]
  apply String.ext
  simp

theorem l1_exported_and_called_run (name : String) (b : Stdout) :
    hello_from_l1_exported_and_called name b =
      b ++ ("Hello " ++ name ++ " from L2! exported_and_called\n" ++
            "Hello " ++ name ++ " from L2! not_exported_but_called\n" ++
            "Hello " ++ name ++ " from L1! exported_and_called\n") := by
  simp only [hello_from_l1_exported_and_called, l1_impl_run]
  apply String.ext
  simp

theorem l1_exported_not_called_run (name : String) (b : Stdout) :
    hello_from_l1_exported_not_called name b =
      b ++ ("Hello " ++ name ++ " from L2! exported_and_called\n" ++
            "Hello " ++ name ++ " from L2! not_exported_but_called\n" ++
            "Hello " ++ name ++ " from L1! exported_not_called\n") := by
  simp only [hello_from_l1_exported_not_called, l1_impl_run]
  apply String.ext
  simp

theorem l1_not_exported_but_called_run (name : String) (b : Stdout) :
    hello_from_l1_not_exported_but_called name b =
      b ++ ("Hello " ++ name ++ " from L2! exported_and_called\n" ++
            "Hello " ++ name ++ " from L2! not_exported_but_called\n" ++
            "Hello " ++ name ++ " from L1! not_exported_but_called\n") := by
  simp only [hello_from_l1_not_exported_but_called, l1_impl_run]
  apply String.ext
  simp

theorem l1_not_exported_not_called_run (name : String) (b : Stdout) :
    hello_from_l1_not_exported_not_called name b =
      b ++ ("Hello " ++ name ++ " from L2! exported_and_called\n" ++
            "Hello " ++ name ++ " from L2! not_exported_but_called\n" ++
            "Hello " ++ name ++ " from L1! not_exported_not_called\n") := by
  simp only [hello_from_l1_not_exported_not_called, l1_impl_run]
  apply String.ext
  simp

theorem hello_run (name : String) (b : Stdout) :
    hello name b =
      b ++ ("Hello, World! " ++ name ++ "\n" ++
            "Hello " ++ name ++ " from L2! exported_and_called\n" ++
            "Hello " ++ name ++ " from L2! not_exported_but_called\n" ++
            "Hello " ++ name ++ " from L1! exported_and_called\n" ++
            "Hello " ++ name ++ " from L2! exported_and_called\n" ++
            "Hello " ++ name ++ " from L2! not_exported_but_called\n" ++
            "Hello " ++ name ++ " from L1! not_exported_but_called\n") := by
  simp only [hello, l1_exported_and_called_run, l1_not_exported_but_called_run]
  apply String.ext
  simp

/-- Every function appends to the buffer a text that depends on `name` only. -/
theorem run_frame (f : Fn) (name : String) (b : Stdout) :
    f.run name b = b ++ output f.run name := by
  cases f <;>
    simp only [Fn.run, output, hello_run, l1_exported_and_called_run,
      l1_exported_not_called_run, l1_not_exported_but_called_run,
      l1_not_exported_not_called_run, l2_exported_and_called_run,
      l2_exported_not_called_run, l2_not_exported_but_called_run,
      l2_not_exported_not_called_run, l2_ntu_exported_not_called_run,
      l2_ntu_not_exported_not_called_run, String.empty_append]

/-! ## C1-C5 -/

set_option maxRecDepth 4096 in
/-- C1: for every name the entry operation writes the line
`Hello, World! <name>`, then everything `hello_from_l1_exported_and_called`
writes, then everything `hello_from_l1_not_exported_but_called` writes; for the
name `World` this is exactly the seven documented lines, each ended by a line
break. -/
theorem C1_entry_output :
    (∀ name : String, output hello name =
        "Hello, World! " ++ name ++ "\n" ++
          output hello_from_l1_exported_and_called name ++
          output hello_from_l1_not_exported_but_called name) ∧
    output hello "World" =
      String.join (List.map (fun line => line ++ "\n")
        ["Hello, World! World",
         "Hello World from L2! exported_and_called",
         "Hello World from L2! not_exported_but_called",
         "Hello World from L1! exported_and_called",
         "Hello World from L2! exported_and_called",
         "Hello World from L2! not_exported_but_called",
         "Hello World from L1! not_exported_but_called"]) ∧
    output hello "World" =
      "Hello, World! World\nHello World from L2! exported_and_called\nHello World from L2! not_exported_but_called\nHello World from L1! exported_and_called\nHello World from L2! exported_and_called\nHello World from L2! not_exported_but_called\nHello World from L1! not_exported_but_called\n" := by
  refine ⟨fun name => ?_, by rfl, by rfl⟩
  simp only [output, hello_run, l1_exported_and_called_run,
    l1_not_exported_but_called_run]
  apply String.ext
  simp

/-- C2: for every name X, `hello_from_l2_exported_and_called(X)` writes exactly
`Hello X from L2! exported_and_called` and one line break, nothing else. -/
theorem C2_l2_exported_and_called_output :
    (∀ name : String, output hello_from_l2_exported_and_called name =
        "Hello " ++ name ++ " from L2! exported_and_called" ++ "\n") ∧
    output hello_from_l2_exported_and_called "X" =
      "Hello X from L2! exported_and_called\n" := by
  refine ⟨fun name => ?_, by decide⟩
  simp only [output, l2_exported_and_called_run]
  apply String.ext
  simp

/-- C3: each of the four L1 functions writes what
`hello_from_l2_exported_and_called` writes, then what
`hello_from_l2_not_exported_but_called` writes, then
`Hello <name> from L1!`, a blank, its own suffix and a line break, with no
line break between `from L1!` and the suffix. -/
theorem C3_l1_outputs (name : String) :
    output hello_from_l1_exported_and_called name =
      output hello_from_l2_exported_and_called name ++
      output hello_from_l2_not_exported_but_called name ++
      ("Hello " ++ name ++ " from L1!" ++ " " ++ "exported_and_called" ++ "\n") ∧
    output hello_from_l1_exported_not_called name =
      output hello_from_l2_exported_and_called name ++
      output hello_from_l2_not_exported_but_called name ++
      ("Hello " ++ name ++ " from L1!" ++ " " ++ "exported_not_called" ++ "\n") ∧
    output hello_from_l1_not_exported_but_called name =
      output hello_from_l2_exported_and_called name ++
      output hello_from_l2_not_exported_but_called name ++
      ("Hello " ++ name ++ " from L1!" ++ " " ++ "not_exported_but_called" ++ "\n") ∧
    output hello_from_l1_not_exported_not_called name =
      output hello_from_l2_exported_and_called name ++
      output hello_from_l2_not_exported_but_called name ++
      ("Hello " ++ name ++ " from L1!" ++ " " ++ "not_exported_not_called" ++ "\n") := by
  simp only [output, l1_exported_and_called_run, l1_exported_not_called_run,
    l1_not_exported_but_called_run, l1_not_exported_not_called_run,
    l2_exported_and_called_run, l2_not_exported_but_called_run]
  refine ⟨?_, ?_, ?_, ?_⟩ <;> apply String.ext <;> simp

/-- C4: the two NTU functions write exactly
`Hello <name> from L2 NTU exported not called!` and
`Hello <name> from L2 NTU not exported not called!`, each with a line break. -/
theorem C4_ntu_outputs (name : String) :
    output hello_from_l2_ntu_exported_not_called name =
      "Hello " ++ name ++ " from L2 NTU exported not called!\n" ∧
    output hello_from_l2_ntu_not_exported_not_called name =
      "Hello " ++ name ++ " from L2 NTU not exported not called!\n" := by
  simp only [output, l2_ntu_exported_not_called_run,
    l2_ntu_not_exported_not_called_run]
  constructor <;> apply String.ext <;> simp

/-- C5: every function of the three layers, run with `name` on any buffer `b`,
leaves `b` followed by a text that depends on `name` only; run twice it leaves
`b` followed by that text twice. -/
theorem C5_no_accumulated_state (f : Fn) :
    ∃ out_f : String → String, ∀ (name : String) (b : Stdout),
      f.run name b = b ++ out_f name ∧
      f.run name (f.run name b) = b ++ out_f name ++ out_f name := by
  refine ⟨output f.run, fun name b => ⟨run_frame f name b, ?_⟩⟩
  rw [run_frame f name (f.run name b), run_frame f name b]

/-! ## C6: the name is echoed verbatim -/

/-- Every function starts its output with its leading literal and the name. -/
theorem output_starts (f : Fn) (name : String) :
    ∃ post : String, output f.run name = f.lead ++ name ++ post := by
  cases f <;>
    exact ⟨_, by
      simp only [Fn.run, Fn.lead, output, hello_run, l1_exported_and_called_run,
        l1_exported_not_called_run, l1_not_exported_but_called_run,
        l1_not_exported_not_called_run, l2_exported_and_called_run,
        l2_exported_not_called_run, l2_not_exported_but_called_run,
        l2_not_exported_not_called_run, l2_ntu_exported_not_called_run,
        l2_ntu_not_exported_not_called_run, String.empty_append,
        String.append_assoc]
      rfl⟩

theorem occurs_mid (pre mid post : String) : Occurs mid (pre ++ mid ++ post) := by
  unfold Occurs
  simp only [String.data_append]
  exact List.infix_append _ _ _

theorem occurs_of_eq {p s t : String} (h : s = t) (ht : Occurs p t) : Occurs p s :=
  h ▸ ht

/-- C6: for every name, the empty one and names with blanks or line breaks
included, the output of each function of the three layers contains the name as
a contiguous substring, right after the leading literal `Hello ` (for the entry
operation `Hello, World! `); the own line of each L1 function carries the name
right after `Hello ` as well. -/
theorem C6_name_verbatim (f : Fn) (name : String) :
    Occurs name (output f.run name) ∧
    (∃ post : String, output f.run name = f.lead ++ name ++ post) ∧
    (f.lead = "Hello, World! " ∨ f.lead = "Hello ") ∧
    Occurs ("Hello " ++ name ++ " from L1!")
      (output hello_from_l1_exported_and_called name) ∧
    Occurs ("Hello " ++ name ++ " from L1!")
      (output hello_from_l1_exported_not_called name) ∧
    Occurs ("Hello " ++ name ++ " from L1!")
      (output hello_from_l1_not_exported_but_called name) ∧
    Occurs ("Hello " ++ name ++ " from L1!")
      (output hello_from_l1_not_exported_not_called name) := by
  refine ⟨?_, output_starts f name, ?_, ?_, ?_, ?_, ?_⟩
  · obtain ⟨post, h⟩ := output_starts f name
    exact occurs_of_eq h (occurs_mid _ _ _)
  · cases f <;> simp [Fn.lead]
  · refine occurs_of_eq (t := ("Hello " ++ name ++ " from L2! exported_and_called\n" ++
        "Hello " ++ name ++ " from L2! not_exported_but_called\n") ++
        ("Hello " ++ name ++ " from L1!") ++ " exported_and_called\n") ?_ (occurs_mid _ _ _)
    simp only [output, l1_exported_and_called_run]
    apply String.ext
    simp
  · refine occurs_of_eq (t := ("Hello " ++ name ++ " from L2! exported_and_called\n" ++
        "Hello " ++ name ++ " from L2! not_exported_but_called\n") ++
        ("Hello " ++ name ++ " from L1!") ++ " exported_not_called\n") ?_ (occurs_mid _ _ _)
    simp only [output, l1_exported_not_called_run]
    apply String.ext
    simp
  · refine occurs_of_eq (t := ("Hello " ++ name ++ " from L2! exported_and_called\n" ++
        "Hello " ++ name ++ " from L2! not_exported_but_called\n") ++
        ("Hello " ++ name ++ " from L1!") ++ " not_exported_but_called\n") ?_ (occurs_mid _ _ _)
    simp only [output, l1_not_exported_but_called_run]
    apply String.ext
    simp
  · refine occurs_of_eq (t := ("Hello " ++ name ++ " from L2! exported_and_called\n" ++
        "Hello " ++ name ++ " from L2! not_exported_but_called\n") ++
        ("Hello " ++ name ++ " from L1!") ++ " not_exported_not_called\n") ?_ (occurs_mid _ _ _)
    simp only [output, l1_not_exported_not_called_run]
    apply String.ext
    simp

/-! ## C7: line breaks written by the L2 calls of the L1 helper -/

theorem lineBreaks_append (s t : String) :
    lineBreaks (s ++ t) = lineBreaks s + lineBreaks t := by
  simp [lineBreaks]

theorem lineBreaks_l2_exported_and_called (name : String) :
    lineBreaks (output hello_from_l2_exported_and_called name) = lineBreaks name + 1 := by
  simp only [output, l2_exported_and_called_run, lineBreaks_append]
  simp [lineBreaks]

theorem lineBreaks_l2_not_exported_but_called (name : String) :
    lineBreaks (output hello_from_l2_not_exported_but_called name) = lineBreaks name + 1 := by
  simp only [output, l2_not_exported_but_called_run, lineBreaks_append]
  simp [lineBreaks]

theorem lineBreaks_eq_zero {name : String} (h : '\n' ∉ name.data) : lineBreaks name = 0 := by
  simpa [lineBreaks] using List.count_eq_zero.mpr h

/-- C7, as stated, fails: for the name `World`, which has no line break, each
of the two L2 calls of the L1 helper writes a text with one line break, not
two. -/
theorem C7_two_line_breaks_fails :
    '\n' ∉ "World".data ∧
    lineBreaks (output hello_from_l2_exported_and_called "World") ≠ 2 ∧
    lineBreaks (output hello_from_l2_not_exported_but_called "World") ≠ 2 := by
  decide

/-- C7, amended: for every name without a line break, the text written by each
of the two L2 calls of the L1 helper contains exactly one line break. -/
theorem C7_one_line_break (name : String) (h : '\n' ∉ name.data) :
    lineBreaks (output hello_from_l2_exported_and_called name) = 1 ∧
    lineBreaks (output hello_from_l2_not_exported_but_called name) = 1 := by
  rw [lineBreaks_l2_exported_and_called, lineBreaks_l2_not_exported_but_called,
    lineBreaks_eq_zero h]
  exact ⟨rfl, rfl⟩

theorem C7_one_line_break_witness :
    '\n' ∉ "World".data ∧
    lineBreaks (output hello_from_l2_exported_and_called "World") = 1 ∧
    lineBreaks (output hello_from_l2_not_exported_but_called "World") = 1 :=
  ⟨by decide, C7_one_line_break "World" (by decide)⟩

/-! ## C8: the NTU functions -/

theorem lineBreaks_ntu_exported_not_called (name : String) :
    lineBreaks (output hello_from_l2_ntu_exported_not_called name) = lineBreaks name + 1 := by
  simp only [output, l2_ntu_exported_not_called_run, lineBreaks_append]
  simp [lineBreaks]

theorem lineBreaks_ntu_not_exported_not_called (name : String) :
    lineBreaks (output hello_from_l2_ntu_not_exported_not_called name) =
      lineBreaks name + 1 := by
  simp only [output, l2_ntu_not_exported_not_called_run, lineBreaks_append]
  simp [lineBreaks]

/-- C8, as stated, fails: for the name made of `a`, a line break and `b`, the
output of each NTU function has two line breaks, so it is not a single line
ending in its one line break. -/
theorem C8_single_line_fails :
    ¬ SingleHelloLine "a\nb" (output hello_from_l2_ntu_exported_not_called "a\nb") ∧
    ¬ SingleHelloLine "a\nb" (output hello_from_l2_ntu_not_exported_not_called "a\nb") := by
  constructor <;> rintro ⟨-, h⟩ <;> revert h <;> decide

/-- C8, amended: for every name, the output of each NTU function contains
`NTU`, is `Hello `, the name, a fixed text without line break and one line
break (so it has one line break more than the name, and is a single line
whenever the name has no line break, as for the regular L2 functions), differs
from the output of each of the four regular L2 functions for the same name, and
the two NTU outputs differ from each other. -/
theorem C8_ntu_outputs (name : String) :
    Occurs "NTU" (output hello_from_l2_ntu_exported_not_called name) ∧
    Occurs "NTU" (output hello_from_l2_ntu_not_exported_not_called name) ∧
    (output hello_from_l2_ntu_exported_not_called name =
        "Hello " ++ name ++ " from L2 NTU exported not called!" ++ "\n" ∧
      lineBreaks " from L2 NTU exported not called!" = 0 ∧
      lineBreaks (output hello_from_l2_ntu_exported_not_called name) =
        lineBreaks name + 1) ∧
    (output hello_from_l2_ntu_not_exported_not_called name =
        "Hello " ++ name ++ " from L2 NTU not exported not called!" ++ "\n" ∧
      lineBreaks " from L2 NTU not exported not called!" = 0 ∧
      lineBreaks (output hello_from_l2_ntu_not_exported_not_called name) =
        lineBreaks name + 1) ∧
    (lineBreaks name = 0 →
      SingleHelloLine name (output hello_from_l2_ntu_exported_not_called name) ∧
      SingleHelloLine name (output hello_from_l2_ntu_not_exported_not_called name) ∧
      SingleHelloLine name (output hello_from_l2_exported_and_called name) ∧
      SingleHelloLine name (output hello_from_l2_exported_not_called name) ∧
      SingleHelloLine name (output hello_from_l2_not_exported_but_called name) ∧
      SingleHelloLine name (output hello_from_l2_not_exported_not_called name)) ∧
    (output hello_from_l2_ntu_exported_not_called name ≠
        output hello_from_l2_exported_and_called name ∧
      output hello_from_l2_ntu_exported_not_called name ≠
        output hello_from_l2_exported_not_called name ∧
      output hello_from_l2_ntu_exported_not_called name ≠
        output hello_from_l2_not_exported_but_called name ∧
      output hello_from_l2_ntu_exported_not_called name ≠
        output hello_from_l2_not_exported_not_called name) ∧
    (output hello_from_l2_ntu_not_exported_not_called name ≠
        output hello_from_l2_exported_and_called name ∧
      output hello_from_l2_ntu_not_exported_not_called name ≠
        output hello_from_l2_exported_not_called name ∧
      output hello_from_l2_ntu_not_exported_not_called name ≠
        output hello_from_l2_not_exported_but_called name ∧
      output hello_from_l2_ntu_not_exported_not_called name ≠
        output hello_from_l2_not_exported_not_called name) ∧
    output hello_from_l2_ntu_exported_not_called name ≠
      output hello_from_l2_ntu_not_exported_not_called name := by
  have e1 : output hello_from_l2_ntu_exported_not_called name =
      "Hello " ++ name ++ " from L2 NTU exported not called!" ++ "\n" := by
    simp only [output, l2_ntu_exported_not_called_run]
    apply String.ext
    simp
  have e2 : output hello_from_l2_ntu_not_exported_not_called name =
      "Hello " ++ name ++ " from L2 NTU not exported not called!" ++ "\n" := by
    simp only [output, l2_ntu_not_exported_not_called_run]
    apply String.ext
    simp
  refine ⟨?_, ?_, ⟨e1, by decide, lineBreaks_ntu_exported_not_called name⟩,
    ⟨e2, by decide, lineBreaks_ntu_not_exported_not_called name⟩, ?_, ?_, ?_, ?_⟩
  · refine occurs_of_eq (t := ("Hello " ++ name ++ " from L2 ") ++ "NTU" ++
      " exported not called!\n") ?_ (occurs_mid _ _ _)
    rw [e1]
    apply String.ext
    simp
  · refine occurs_of_eq (t := ("Hello " ++ name ++ " from L2 ") ++ "NTU" ++
      " not exported not called!\n") ?_ (occurs_mid _ _ _)
    rw [e2]
    apply String.ext
    simp
  · intro h0
    refine ⟨⟨⟨_, e1⟩, ?_⟩, ⟨⟨_, e2⟩, ?_⟩, ⟨⟨" from L2! exported_and_called", ?_⟩, ?_⟩,
      ⟨⟨" from L2! exported_not_called", ?_⟩, ?_⟩,
      ⟨⟨" from L2! not_exported_but_called", ?_⟩, ?_⟩,
      ⟨⟨" from L2! not_exported_not_called", ?_⟩, ?_⟩⟩
    · rw [lineBreaks_ntu_exported_not_called, h0]
    · rw [lineBreaks_ntu_not_exported_not_called, h0]
    · simp only [output, l2_exported_and_called_run]
      apply String.ext
      simp
    · rw [lineBreaks_l2_exported_and_called, h0]
    · simp only [output, l2_exported_not_called_run]
      apply String.ext
      simp
    · simp only [output, l2_exported_not_called_run, lineBreaks_append]
      simp [lineBreaks] at h0 ⊢
      exact h0
    · simp only [output, l2_not_exported_but_called_run]
      apply String.ext
      simp
    · rw [lineBreaks_l2_not_exported_but_called, h0]
    · simp only [output, l2_not_exported_not_called_run]
      apply String.ext
      simp
    · simp only [output, l2_not_exported_not_called_run, lineBreaks_append]
      simp [lineBreaks] at h0 ⊢
      exact h0
  · refine ⟨?_, ?_, ?_, ?_⟩ <;> intro h <;> replace h := congrArg String.data h <;>
      simp [output, l2_ntu_exported_not_called_run, l2_exported_and_called_run,
        l2_exported_not_called_run, l2_not_exported_but_called_run,
        l2_not_exported_not_called_run] at h
  · refine ⟨?_, ?_, ?_, ?_⟩ <;> intro h <;> replace h := congrArg String.data h <;>
      simp [output, l2_ntu_not_exported_not_called_run, l2_exported_and_called_run,
        l2_exported_not_called_run, l2_not_exported_but_called_run,
        l2_not_exported_not_called_run] at h
  · intro h
    replace h := congrArg String.data h
    simp [output, l2_ntu_exported_not_called_run,
      l2_ntu_not_exported_not_called_run] at h

theorem C8_ntu_outputs_witness :
    SingleHelloLine "World" (output hello_from_l2_ntu_exported_not_called "World") ∧
    SingleHelloLine "World" (output hello_from_l2_ntu_not_exported_not_called "World") :=
  ⟨((C8_ntu_outputs "World").2.2.2.2.1 (by decide)).1,
   ((C8_ntu_outputs "World").2.2.2.2.1 (by decide)).2.1⟩

/-! ## C9: what the entry path never writes -/

/-- A pattern that does not contain `c` and occurs neither in `a` nor in `b`
does not occur in `a`, `c`, `b` put together. -/
theorem not_infix_sep {α : Type} {p a b : List α} {c : α} (hc : c ∉ p)
    (ha : ¬ p <:+: a) (hb : ¬ p <:+: b) : ¬ p <:+: a ++ c :: b := by
  rintro ⟨s, t, hst⟩
  rw [List.append_eq_append_iff] at hst
  rcases hst with ⟨a', h1, _⟩ | ⟨c', h1, h2⟩
  · exact ha ⟨s, a', h1.symm⟩
  · rw [List.cons_eq_append_iff] at h2
    rcases h2 with ⟨rfl, _⟩ | ⟨d, rfl, rfl⟩
    · exact ha ⟨s, [], by simpa using h1⟩
    · rw [List.append_eq_append_iff] at h1
      rcases h1 with ⟨e, _, h4⟩ | ⟨e, _, h4⟩
      · exact hc (by rw [h4]; simp)
      · rw [List.cons_eq_append_iff] at h4
        rcases h4 with ⟨rfl, h5⟩ | ⟨g, rfl, rfl⟩
        · exact hc (by rw [h5]; simp)
        · exact hb ⟨g, t, by simp⟩

/-- A pattern without blank or line break that occurs in none of the words of
a line `Hello <name> from <layer> <suffix>` nor after it does not occur in the
line followed by the rest. -/
theorem not_infix_layerLine {p name layer suffix rest : List Char}
    (hsp : ' ' ∉ p) (hnl : '\n' ∉ p)
    (hH : ¬ p <:+: "Hello".data) (hF : ¬ p <:+: "from".data)
    (hn : ¬ p <:+: name) (hl : ¬ p <:+: layer) (hs : ¬ p <:+: suffix)
    (hr : ¬ p <:+: rest) : ¬ p <:+: layerLine name layer suffix rest :=
  not_infix_sep hsp hH (not_infix_sep hsp hn (not_infix_sep hsp hF
    (not_infix_sep hsp hl (not_infix_sep hnl hs hr))))

set_option maxRecDepth 8192 in
/-- The output of the entry operation, word by word. -/
theorem hello_output_words (name : String) :
    (output hello name).data =
      "Hello,".data ++ ' ' :: ("World!".data ++ ' ' :: (name.data ++ '\n' ::
        layerLine name.data "L2!".data "exported_and_called".data
        (layerLine name.data "L2!".data "not_exported_but_called".data
        (layerLine name.data "L1!".data "exported_and_called".data
        (layerLine name.data "L2!".data "exported_and_called".data
        (layerLine name.data "L2!".data "not_exported_but_called".data
        (layerLine name.data "L1!".data "not_exported_but_called".data [])))))))  := by
  simp [output, hello_run, layerLine]

/-- A pattern without blank or line break that occurs in none of the words the
entry path writes and not in the name does not occur in the entry output. -/
theorem not_occurs_hello {p name : String}
    (hsp : ' ' ∉ p.data) (hnl : '\n' ∉ p.data)
    (hw : ∀ w ∈ ["Hello,", "World!", "Hello", "from", "L2!", "L1!",
      "exported_and_called", "not_exported_but_called", ""], ¬ Occurs p w)
    (hn : ¬ Occurs p name) : ¬ Occurs p (output hello name) := by
  have hH : ¬ p.data <:+: "Hello".data := hw "Hello" (by simp)
  have hF : ¬ p.data <:+: "from".data := hw "from" (by simp)
  have h2 : ¬ p.data <:+: "L2!".data := hw "L2!" (by simp)
  have h1 : ¬ p.data <:+: "L1!".data := hw "L1!" (by simp)
  have hA : ¬ p.data <:+: "exported_and_called".data := hw "exported_and_called" (by simp)
  have hB : ¬ p.data <:+: "not_exported_but_called".data :=
    hw "not_exported_but_called" (by simp)
  have hE : ¬ p.data <:+: ([] : List Char) := hw "" (by simp)
  unfold Occurs at hn ⊢
  rw [hello_output_words]
  refine not_infix_sep hsp (hw "Hello," (by simp)) (not_infix_sep hsp (hw "World!" (by simp))
    (not_infix_sep hnl hn ?_))
  exact not_infix_layerLine hsp hnl hH hF hn h2 hA
    (not_infix_layerLine hsp hnl hH hF hn h2 hB
    (not_infix_layerLine hsp hnl hH hF hn h1 hA
    (not_infix_layerLine hsp hnl hH hF hn h2 hA
    (not_infix_layerLine hsp hnl hH hF hn h2 hB
    (not_infix_layerLine hsp hnl hH hF hn h1 hB hE)))))

theorem not_occurs_of_part {p q s : String} (hpq : Occurs p q) (hs : ¬ Occurs p s) :
    ¬ Occurs q s :=
  fun h => hs (List.IsInfix.trans hpq h)

set_option maxRecDepth 8192 in
/-- C9: for every name in which neither `not_called` nor `NTU` occurs, the
output of the entry operation contains no `not_called` and no `NTU`, hence none
of the suffixes ` exported_not_called`, ` not_exported_not_called` and neither
NTU line; and for every name, without any condition on it,
`hello_from_l2_exported_not_called` and `hello_from_l2_not_exported_not_called`
called directly write their documented lines. -/
theorem C9_not_called_absent (name : String) :
    (¬ Occurs "not_called" name → ¬ Occurs "NTU" name →
      ¬ Occurs "not_called" (output hello name) ∧
      ¬ Occurs "NTU" (output hello name) ∧
      ¬ Occurs " exported_not_called" (output hello name) ∧
      ¬ Occurs " not_exported_not_called" (output hello name) ∧
      ¬ Occurs (output hello_from_l2_ntu_exported_not_called name) (output hello name) ∧
      ¬ Occurs (output hello_from_l2_ntu_not_exported_not_called name)
        (output hello name)) ∧
    output hello_from_l2_exported_not_called name =
      "Hello " ++ name ++ " from L2! exported_not_called\n" ∧
    output hello_from_l2_not_exported_not_called name =
      "Hello " ++ name ++ " from L2! not_exported_not_called\n" := by
  refine ⟨fun h1 h2 => ?_, ?_, ?_⟩
  · have hnc : ¬ Occurs "not_called" (output hello name) :=
      not_occurs_hello (by decide) (by decide) (by decide) h1
    have hntu : ¬ Occurs "NTU" (output hello name) :=
      not_occurs_hello (by decide) (by decide) (by decide) h2
    refine ⟨hnc, hntu, not_occurs_of_part (by decide) hnc,
      not_occurs_of_part (by decide) hnc, not_occurs_of_part ?_ hntu,
      not_occurs_of_part ?_ hntu⟩
    · refine occurs_of_eq (t := ("Hello " ++ name ++ " from L2 ") ++ "NTU" ++
        " exported not called!\n") ?_ (occurs_mid _ _ _)
      simp only [output, l2_ntu_exported_not_called_run]
      apply String.ext
      simp
    · refine occurs_of_eq (t := ("Hello " ++ name ++ " from L2 ") ++ "NTU" ++
        " not exported not called!\n") ?_ (occurs_mid _ _ _)
      simp only [output, l2_ntu_not_exported_not_called_run]
      apply String.ext
      simp
  · simp only [output, l2_exported_not_called_run]
    apply String.ext
    simp
  · simp only [output, l2_not_exported_not_called_run]
    apply String.ext
    simp

set_option maxRecDepth 8192 in
theorem C9_not_called_absent_witness :
    (¬ Occurs "not_called" "World" ∧ ¬ Occurs "NTU" "World") ∧
    (¬ Occurs "not_called" (output hello "World") ∧
      ¬ Occurs "NTU" (output hello "World")) ∧
    output hello_from_l2_exported_not_called "NTU not_called" =
      "Hello NTU not_called from L2! exported_not_called\n" ∧
    output hello_from_l2_not_exported_not_called "NTU not_called" =
      "Hello NTU not_called from L2! not_exported_not_called\n" :=
  ⟨⟨by decide, by decide⟩,
   ⟨((C9_not_called_absent "World").1 (by decide) (by decide)).1,
    ((C9_not_called_absent "World").1 (by decide) (by decide)).2.1⟩,
   (C9_not_called_absent "NTU not_called").2⟩

/-! ## C10: the output determines the name -/

theorem data_eq_of_append_eq {a b ra rb : List Char} (h : a ++ ra = b ++ rb)
    (hl : a.length = b.length) : a = b :=
  (List.append_inj h hl).1

set_option maxRecDepth 8192 in
/-- C10: for each function of the three layers, two names that make it write
the same text are equal. -/
theorem C10_output_injective (f : Fn) (a b : String)
    (h : output f.run a = output f.run b) : a = b := by
  have hd := congrArg String.data h
  have hl := congrArg List.length hd
  apply String.ext
  cases f <;>
    simp [Fn.run, output, hello_run, l1_exported_and_called_run,
      l1_exported_not_called_run, l1_not_exported_but_called_run,
      l1_not_exported_not_called_run, l2_exported_and_called_run,
      l2_exported_not_called_run, l2_not_exported_but_called_run,
      l2_not_exported_not_called_run, l2_ntu_exported_not_called_run,
      l2_ntu_not_exported_not_called_run] at hd hl <;>
    first
      | exact hd
      | exact data_eq_of_append_eq hd (by
          have ha : a.length = a.data.length := rfl
          have hb : b.length = b.data.length := rfl
          omega)

theorem C10_output_injective_witness :
    output Fn.entry.run "World" = output Fn.entry.run "World" ∧ "World" = "World" :=
  ⟨rfl, C10_output_injective Fn.entry "World" "World" rfl⟩

end cc
